import Mathlib

/-!
Verification of the Solar Energy Monitoring System sketch
(src/SolarEnergyMonitoringSystem.ino).

Shallow embedding conventions:
* C++ `float` arithmetic is modelled by exact rational arithmetic (`ℚ`).
* `analogRead` results are the environment: they enter as `ℕ` parameters
  (one sample for the voltage pin, a list of samples for the current pin).
* The relay pin is modelled by a `Bool` field `relayPin` (`true` = HIGH);
  `digitalRead` is assumed to read back the last value written.
* `long totalAdc` cannot overflow (at most 20 · 4095), so plain `ℕ`
  arithmetic is faithful; `totalAdc / 20` is C++ integer division, which on
  nonnegative operands is `ℕ` floor division.
-/

/-- `const float VOLTAGE_SCALE_FACTOR = 4.0;` -/
def VOLTAGE_SCALE_FACTOR : ℚ := 4

/-- `const float ADC_MAX_VOLTAGE = 3.3;` -/
def ADC_MAX_VOLTAGE : ℚ := 33 / 10

/-- `const int ADC_RESOLUTION = 4095;` -/
def ADC_RESOLUTION : ℕ := 4095

/-- `const float CURRENT_SENSITIVITY = 0.185;` -/
def CURRENT_SENSITIVITY : ℚ := 185 / 1000

/-- `const int ZERO_CURRENT_OFFSET = 2048;` -/
def ZERO_CURRENT_OFFSET : ℤ := 2048

/-- `const float MIN_POWER_TO_CONNECT_W = 10.0;` -/
def MIN_POWER_TO_CONNECT_W : ℚ := 10

/-- The global mutable state of the sketch: the four state variables
(`currentVoltage`, `currentCurrent`, `currentPower`, `loadConnected`)
together with the relay output pin level (`true` = HIGH). -/
structure SysState where
  currentVoltage : ℚ
  currentCurrent : ℚ
  currentPower : ℚ
  loadConnected : Bool
  relayPin : Bool
deriving DecidableEq

/-- State after `setup()`: globals are initialised to `0.0` / `false` and
`setup` drives the relay pin LOW (`digitalWrite(LOAD_RELAY_PIN, LOW)`). -/
def initialState : SysState :=
  { currentVoltage := 0
  , currentCurrent := 0
  , currentPower := 0
  , loadConnected := false
  , relayPin := false }

/-- `readVoltage()` applied to the raw ADC sample `adcValue` returned by
`analogRead(VOLTAGE_PIN)`:
`((float)adcValue / ADC_RESOLUTION) * ADC_MAX_VOLTAGE * VOLTAGE_SCALE_FACTOR`. -/
def readVoltage (adcValue : ℕ) : ℚ :=
  (adcValue : ℚ) / (ADC_RESOLUTION : ℚ) * ADC_MAX_VOLTAGE * VOLTAGE_SCALE_FACTOR

/-- `readCurrent()` applied to the list of raw ADC samples returned by the
20 calls to `analogRead(CURRENT_PIN)`: sums the samples, divides by 20 with
integer division, converts to a sense voltage, subtracts the fixed
mid-scale offset `ADC_MAX_VOLTAGE / 2.0`, divides by `CURRENT_SENSITIVITY`
and takes the absolute value. -/
def readCurrentFrom (samples : List ℕ) : ℚ :=
  let totalAdc : ℕ := samples.sum
  let avgAdc : ℕ := totalAdc / 20
  let sensorVoltage : ℚ := (avgAdc : ℚ) / (ADC_RESOLUTION : ℚ) * ADC_MAX_VOLTAGE
  let voltageOffset : ℚ := ADC_MAX_VOLTAGE / 2
  let currentAmps : ℚ := (sensorVoltage - voltageOffset) / CURRENT_SENSITIVITY
  |currentAmps|

/-- `readCurrent()` with the configuration constant `ZERO_CURRENT_OFFSET`
made an explicit parameter `zco`.  The body mirrors the source exactly:
`readCurrent` never mentions `ZERO_CURRENT_OFFSET`, so `zco` does not occur
in the body either. -/
def readCurrentWithOffset (zco : ℤ) (samples : List ℕ) : ℚ :=
  let _ := zco
  let totalAdc : ℕ := samples.sum
  let avgAdc : ℕ := totalAdc / 20
  let sensorVoltage : ℚ := (avgAdc : ℚ) / (ADC_RESOLUTION : ℚ) * ADC_MAX_VOLTAGE
  let voltageOffset : ℚ := ADC_MAX_VOLTAGE / 2
  let currentAmps : ℚ := (sensorVoltage - voltageOffset) / CURRENT_SENSITIVITY
  |currentAmps|

/-- `controlLoad()`: if `currentPower >= MIN_POWER_TO_CONNECT_W` and the
relay pin reads LOW, drive it HIGH and set `loadConnected = true`; if
`currentPower < MIN_POWER_TO_CONNECT_W` and the pin reads HIGH, drive it
LOW and set `loadConnected = false`; otherwise leave the state unchanged. -/
def controlLoad (s : SysState) : SysState :=
  if MIN_POWER_TO_CONNECT_W ≤ s.currentPower then
    if s.relayPin = false then
      { s with relayPin := true, loadConnected := true }
    else s
  else
    if s.relayPin = true then
      { s with relayPin := false, loadConnected := false }
    else s

/-- One execution of the load-decision step with the stored power replaced
by `p` (the sketch runs `controlLoad` right after `currentPower` is
assigned). -/
def decideAt (p : ℚ) (s : SysState) : SysState :=
  controlLoad { s with currentPower := p }

/-- Relay pin level after each successive load-decision step on a sequence
of power values (`false` = relay OFF, `true` = relay ON). -/
def relayStates (ps : List ℚ) (s : SysState) : List Bool :=
  match ps with
  | [] => []
  | p :: rest =>
    let s' := decideAt p s
    s'.relayPin :: relayStates rest s'

/-- Left-pad a decimal digit string with zeros to width `w` (used to render
the fractional part of a fixed-point number). -/
def padZeros (w : ℕ) (s : String) : String :=
  String.mk (List.replicate (w - s.length) '0') ++ s

/-- Fixed-point decimal rendering of a rational, modelling the `printf`
style `%.*f` conversions used by `String::format` and `Serial.printf`:
round to `decimals` fractional digits and print sign, integer part, a dot,
and the zero-padded fractional part. -/
def fmtFixed (decimals : ℕ) (x : ℚ) : String :=
  let scaled : ℤ := round (x * (10 : ℚ) ^ decimals)
  let n : ℕ := scaled.natAbs
  let ip : ℕ := n / 10 ^ decimals
  let fp : ℕ := n % 10 ^ decimals
  let sign : String := if scaled < 0 then "-" else ""
  sign ++ toString ip ++ "." ++ padZeros decimals (toString fp)

/-- The HTML template of `getPage()` up to the `%.2f` of the voltage box. -/
def htmlSeg0 : String :=
  "\n<!DOCTYPE html>\n<html>\n<head>\n<meta name=\"viewport\" content=\"width=device-width, initial-scale=1\">\n<meta http-equiv=\"refresh\" content=\"5\"> \n<title>Solar Monitor</title>\n<style>\n" ++
    "body \x7b font-family: \x27Segoe UI\x27, Tahoma, Geneva, Verdana, sans-serif; background: #e0f2f1; margin: 0; padding: 20px;\x7d\n" ++
    ".container \x7b max-width: 600px; margin: auto; background: #ffffff; padding: 35px; border-radius: 12px; box-shadow: 0 6px 15px rgba(0,0,0,0.15); text-align: center; \x7d\n" ++
    "h1 \x7b color: #004d40; margin-bottom: 25px; \x7d\n" ++
    ".metric-grid \x7b display: grid; grid-template-columns: repeat(3, 1fr); gap: 20px; margin-bottom: 30px; \x7d\n" ++
    ".metric-box \x7b background: #f0f4c3; padding: 20px 10px; border-radius: 8px; box-shadow: 0 2px 5px rgba(0,0,0,0.05); \x7d\n" ++
    ".metric-box h2 \x7b font-size: 1.1em; color: #4caf50; margin: 0 0 5px 0; \x7d\n" ++
    ".metric-box p \x7b font-size: 2.0em; font-weight: bold; color: #1b5e20; margin: 0; \x7d\n" ++
    ".status-box \x7b padding: 15px; border-radius: 8px; font-weight: bold; font-size: 1.1em; \x7d\n" ++
    ".status-box.on \x7b background-color: #a5d6a7; color: #1b5e20; \x7d\n" ++
    ".status-box.off \x7b background-color: #ffccbc; color: #d84315; \x7d\n" ++
    ".threshold \x7b margin-top: 15px; font-size: 0.9em; color: #757575; \x7d\n" ++
    "</style>\n</head>\n<body>\n<div class=\"container\">\n<h1>ðŸŒž Solar Energy Monitor</h1>\n\n<div class=\"metric-grid\">\n    <div class=\"metric-box\">\n        <h2>Voltage (V)</h2>\n        <p>"

/-- Template between the voltage value and the `%.2f` of the current box. -/
def htmlSeg1 : String :=
  "</p>\n    </div>\n    <div class=\"metric-box\">\n        <h2>Current (A)</h2>\n        <p>"

/-- Template between the current value and the `%.2f` of the power box. -/
def htmlSeg2 : String :=
  "</p>\n    </div>\n    <div class=\"metric-box\">\n        <h2>Power (W)</h2>\n        <p>"

/-- Template between the power value and the `%s` status class. -/
def htmlSeg3 : String :=
  "</p>\n    </div>\n</div>\n\n<div class=\"status-box "

/-- Template between the status class and the `%s` status text. -/
def htmlSeg4 : String :=
  "\">\n    Load Status: "

/-- Template between the status text and the `%.1f` threshold. -/
def htmlSeg5 : String :=
  "\n</div>\n\n<div class=\"threshold\">\n    Load Control Threshold: "

/-- Template after the threshold value, to the end of the document. -/
def htmlSeg6 : String :=
  " W\n</div>\n\n<p style=\"font-size: 0.8em; margin-top: 20px;\">Data updates every 5 seconds.</p>\n\n</div>\n</body>\n</html>\n"

/-- `getPage()`: substitutes the cached voltage, current and power (as
`%.2f`), the load status class and text (as `%s`), and the threshold
`MIN_POWER_TO_CONNECT_W` (as `%.1f`) into the fixed HTML template. -/
def getPage (s : SysState) : String :=
  let status_class : String := if s.loadConnected then "on" else "off"
  let status_text : String :=
    if s.loadConnected then "CONNECTED" else "DISCONNECTED (Low Power)"
  htmlSeg0 ++ fmtFixed 2 s.currentVoltage ++
    htmlSeg1 ++ fmtFixed 2 s.currentCurrent ++
    htmlSeg2 ++ fmtFixed 2 s.currentPower ++
    htmlSeg3 ++ status_class ++
    htmlSeg4 ++ status_text ++
    htmlSeg5 ++ fmtFixed 1 MIN_POWER_TO_CONNECT_W ++
    htmlSeg6

/-- `handleRoot()`: `server.send(200, "text/html", getPage())`.  Returns
the (unchanged) state together with the HTTP status, content type and
body sent. -/
def handleRoot (s : SysState) : SysState × ℕ × String × String :=
  (s, 200, "text/html", getPage s)

/-- The diagnostic `Serial.printf` line emitted at the end of each loop
iteration. -/
def serialStatusLine (s : SysState) : String :=
  "V: " ++ fmtFixed 2 s.currentVoltage ++ " V | I: " ++
    fmtFixed 2 s.currentCurrent ++ " A | P: " ++
    fmtFixed 2 s.currentPower ++ " W | Load: " ++
    (if s.loadConnected then "ON" else "OFF") ++ "\n"

/-- The environment of one `loop()` iteration: the raw sample returned by
`analogRead(VOLTAGE_PIN)` and the 20 raw samples returned by
`analogRead(CURRENT_PIN)` inside `readCurrent`. -/
structure LoopEnv where
  vAdc : ℕ
  iSamples : List ℕ

/-- Acquisition: the two sensor-reading assignments of `loop()`
(`currentVoltage = readVoltage(); currentCurrent = readCurrent();`). -/
def acquireStage (env : LoopEnv) (s : SysState) : SysState :=
  { s with currentVoltage := readVoltage env.vAdc
         , currentCurrent := readCurrentFrom env.iSamples }

/-- Power computation: `currentPower = currentVoltage * currentCurrent;`. -/
def powerStage (s : SysState) : SysState :=
  { s with currentPower := s.currentVoltage * s.currentCurrent }

/-- One `loop()` iteration, following the source statement by statement:
`server.handleClient()` first (serving a pending `GET /` from the cached
state), then the sensor reads, the power computation, `controlLoad()`, and
the diagnostic print; `delay(5000)` does not touch the state.  Returns the
final state, the page a pending request would have been served, and the
serial line printed. -/
def loopStep (env : LoopEnv) (s : SysState) : SysState × String × String :=
  let servedPage := getPage s
  let s1 := { s with currentVoltage := readVoltage env.vAdc }
  let s2 := { s1 with currentCurrent := readCurrentFrom env.iSamples }
  let s3 := { s2 with currentPower := s2.currentVoltage * s2.currentCurrent }
  let s4 := controlLoad s3
  (s4, servedPage, serialStatusLine s4)

/-- Iterated `loop()` state evolution from a starting state over a list of
per-iteration environments. -/
def runLoop (envs : List LoopEnv) (s : SysState) : SysState :=
  envs.foldl (fun st e => (loopStep e st).1) s

/-- A string occurs verbatim inside another. -/
def containsStr (needle hay : String) : Prop :=
  needle.data <:+: hay.data

/-- The synchronisation property the spec asserts for every state reached
after a load-decision step: `loadConnected` mirrors the relay pin, and the
pin is HIGH exactly when the stored power reaches the threshold. -/
def goodState (s : SysState) : Prop :=
  s.loadConnected = s.relayPin ∧
    (s.relayPin = true ↔ MIN_POWER_TO_CONNECT_W ≤ s.currentPower)

/-- After `controlLoad`, the relay pin is HIGH exactly when the stored
power reaches the threshold, whatever the previous pin level was. -/
theorem controlLoad_relayPin (s : SysState) :
    (controlLoad s).relayPin = decide (MIN_POWER_TO_CONNECT_W ≤ s.currentPower) := by
  simp only [controlLoad]
  split <;> split <;> simp_all

/-- `controlLoad` never writes `currentPower`. -/
theorem controlLoad_currentPower (s : SysState) :
    (controlLoad s).currentPower = s.currentPower := by
  simp only [controlLoad]
  split <;> split <;> rfl

/-- `controlLoad` never writes `currentVoltage`. -/
theorem controlLoad_currentVoltage (s : SysState) :
    (controlLoad s).currentVoltage = s.currentVoltage := by
  simp only [controlLoad]
  split <;> split <;> rfl

/-- `controlLoad` never writes `currentCurrent`. -/
theorem controlLoad_currentCurrent (s : SysState) :
    (controlLoad s).currentCurrent = s.currentCurrent := by
  simp only [controlLoad]
  split <;> split <;> rfl

/-- `controlLoad` keeps `loadConnected` synchronised with the relay pin
whenever they agreed beforehand. -/
theorem controlLoad_sync (s : SysState) (h : s.loadConnected = s.relayPin) :
    (controlLoad s).loadConnected = (controlLoad s).relayPin := by
  simp only [controlLoad]
  split <;> split <;> simp_all

/-- One `loop()` iteration establishes `goodState` from any state whose
`loadConnected` flag mirrors the relay pin. -/
theorem goodState_loopStep (e : LoopEnv) (s : SysState)
    (h : s.loadConnected = s.relayPin) : goodState (loopStep e s).1 := by
  simp only [loopStep]
  refine ⟨controlLoad_sync _ h, ?_⟩
  rw [controlLoad_relayPin, controlLoad_currentPower]
  simp

/-- `goodState` is preserved by any number of `loop()` iterations. -/
theorem goodState_runLoop (envs : List LoopEnv) (s : SysState)
    (h : goodState s) : goodState (runLoop envs s) := by
  induction envs generalizing s with
  | nil => exact h
  | cons e rest ih => exact ih _ (goodState_loopStep e s h.1)

/-- Claim C1: starting from the Disconnected state (relay pin LOW, as set
up by `setup()`), the load-decision step applied to the power sequence
`[5, 15, 9, 20]` with threshold `MIN_POWER_TO_CONNECT_W = 10` yields the
relay sequence `[OFF, ON, OFF, ON]` (`false` = OFF, `true` = ON); and in
general, after a decision step on power `p` the relay pin is HIGH exactly
when `p ≥ threshold`, from any starting state — so Disconnected goes to
Connected exactly when `p ≥ threshold`, Connected goes to Disconnected
exactly when `p < threshold`, with no hysteresis. -/
theorem relaySequence_matches_and_no_hysteresis :
    relayStates [5, 15, 9, 20] initialState = [false, true, false, true] ∧
    ∀ (p : ℚ) (s : SysState),
      (decideAt p s).relayPin = decide (MIN_POWER_TO_CONNECT_W ≤ p) := by
  refine ⟨by decide, fun p s => ?_⟩
  exact controlLoad_relayPin { s with currentPower := p }

/-- Claim C2: at startup the system is Disconnected with the relay pin
driven LOW and `loadConnected` false, and after any number of loop
iterations (each ending in the load-decision step) `loadConnected` is true
iff the relay pin is driven HIGH, which holds iff the current power is at
least `MIN_POWER_TO_CONNECT_W` — under the model's assumption that
`digitalRead` returns the last value written to the pin. -/
theorem startup_disconnected_and_sync_invariant :
    initialState.relayPin = false ∧ initialState.loadConnected = false ∧
    ∀ envs : List LoopEnv,
      ((runLoop envs initialState).loadConnected = true ↔
        (runLoop envs initialState).relayPin = true) ∧
      ((runLoop envs initialState).relayPin = true ↔
        MIN_POWER_TO_CONNECT_W ≤ (runLoop envs initialState).currentPower) := by
  refine ⟨rfl, rfl, fun envs => ?_⟩
  have h := goodState_runLoop envs initialState
    ⟨rfl, by simp [initialState, MIN_POWER_TO_CONNECT_W]⟩
  exact ⟨by rw [h.1], h.2⟩

/-- Claim C3: after the acquisition part of any loop iteration, the stored
voltage and current are exactly the values sampled in that iteration, and
the stored power equals their product; since `controlLoad` writes none of
these fields, the equality still holds in the final state of the
iteration, which is what the subsequent decision and presentation read. -/
theorem power_freshness_invariant :
    ∀ (env : LoopEnv) (s : SysState),
      ((loopStep env s).1).currentVoltage = readVoltage env.vAdc ∧
      ((loopStep env s).1).currentCurrent = readCurrentFrom env.iSamples ∧
      ((loopStep env s).1).currentPower =
        ((loopStep env s).1).currentVoltage * ((loopStep env s).1).currentCurrent := by
  intro env s
  simp only [loopStep]
  refine ⟨?_, ?_, ?_⟩ <;>
    simp [controlLoad_currentVoltage, controlLoad_currentCurrent, controlLoad_currentPower]

/-- Claim C4 (evaluation at the failing input): for 20 raw samples all
equal to `ZERO_CURRENT_OFFSET = 2048` — so the sample average is exactly
the ADC value whose sense voltage is the configured zero-current offset —
`readCurrent` returns `22/10101 ≈ 0.00218 A`, which is not `0`: the code
subtracts the fixed mid-scale `ADC_MAX_VOLTAGE / 2 = 1.65 V` instead of
the sense voltage `(2048/4095)·3.3 V` of `ZERO_CURRENT_OFFSET`. -/
theorem readCurrent_nonzero_at_offset_average :
    readCurrentFrom (List.replicate 20 ZERO_CURRENT_OFFSET.natAbs) = 22 / 10101 ∧
    readCurrentFrom (List.replicate 20 ZERO_CURRENT_OFFSET.natAbs) ≠ 0 := by
  have h : readCurrentFrom (List.replicate 20 ZERO_CURRENT_OFFSET.natAbs) = 22 / 10101 := by
    simp only [readCurrentFrom, ZERO_CURRENT_OFFSET]
    norm_num [List.sum_replicate, ADC_RESOLUTION, ADC_MAX_VOLTAGE, CURRENT_SENSITIVITY]
  exact ⟨h, by rw [h]; norm_num⟩

/-- Claim C5: the current-acquisition result is independent of the
`ZERO_CURRENT_OFFSET` configuration constant: with the constant made an
explicit parameter, any two values of it give identical results on every
sample sequence, and instantiating it at the configured `2048` recovers
the source's `readCurrent` — the subtracted offset is the fixed mid-scale
`ADC_MAX_VOLTAGE / 2.0` instead. -/
theorem readCurrent_ignores_zero_current_offset :
    (∀ (z1 z2 : ℤ) (samples : List ℕ),
      readCurrentWithOffset z1 samples = readCurrentWithOffset z2 samples) ∧
    ∀ samples : List ℕ,
      readCurrentWithOffset ZERO_CURRENT_OFFSET samples = readCurrentFrom samples :=
  ⟨fun _ _ _ => rfl, fun _ => rfl⟩

/-- Claim C6: for every sequence of 20 raw samples, `readCurrent` equals
the absolute value of (average sense voltage minus the mid-scale offset)
divided by the sensitivity — with the constants `4095`, `3.3 V` and
`0.185 V/A` spelled out, and the average taken with the source's integer
division by 20 — and consequently the returned current is nonnegative for
every input sequence. -/
theorem readCurrent_formula_and_nonneg :
    ∀ samples : List ℕ, samples.length = 20 →
      readCurrentFrom samples =
        |((((samples.sum / 20 : ℕ) : ℚ) / 4095) * (33 / 10) - (33 / 10) / 2) / (185 / 1000)| ∧
      0 ≤ readCurrentFrom samples := by
  intro samples _
  constructor
  · simp [readCurrentFrom, ADC_RESOLUTION, ADC_MAX_VOLTAGE, CURRENT_SENSITIVITY]
  · exact abs_nonneg _

/-- Witness for claim C6 at the concrete sample list of 20 zeros. -/
theorem readCurrent_formula_and_nonneg_witness :
    (List.replicate 20 0).length = 20 ∧ 0 ≤ readCurrentFrom (List.replicate 20 0) :=
  ⟨by decide, (readCurrent_formula_and_nonneg (List.replicate 20 0) (by decide)).2⟩

/-- Claim C7: `readVoltage` computes
`sample / resolution * reference_voltage * divider_ratio`; it returns `0`
at sample `0`, and on samples in `[0, ADC_RESOLUTION]` it is monotonically
increasing (and strictly increasing). -/
theorem readVoltage_zero_and_monotone :
    readVoltage 0 = 0 ∧
    (∀ s1 s2 : ℕ, s1 ≤ ADC_RESOLUTION → s2 ≤ ADC_RESOLUTION → s1 ≤ s2 →
      readVoltage s1 ≤ readVoltage s2) ∧
    (∀ s1 s2 : ℕ, s1 ≤ ADC_RESOLUTION → s2 ≤ ADC_RESOLUTION → s1 < s2 →
      readVoltage s1 < readVoltage s2) := by
  refine ⟨by simp [readVoltage], fun s1 s2 _ _ h12 => ?_, fun s1 s2 _ _ h12 => ?_⟩
  · have hc : (s1 : ℚ) ≤ (s2 : ℚ) := by exact_mod_cast h12
    unfold readVoltage ADC_RESOLUTION ADC_MAX_VOLTAGE VOLTAGE_SCALE_FACTOR
    gcongr
  · have hc : (s1 : ℚ) < (s2 : ℚ) := by exact_mod_cast h12
    unfold readVoltage ADC_RESOLUTION ADC_MAX_VOLTAGE VOLTAGE_SCALE_FACTOR
    gcongr

/-- Witness for claim C7 at the concrete samples `100` and `200`. -/
theorem readVoltage_zero_and_monotone_witness :
    ((100 : ℕ) ≤ ADC_RESOLUTION ∧ (200 : ℕ) ≤ ADC_RESOLUTION ∧ (100 : ℕ) ≤ 200 ∧
      readVoltage 100 ≤ readVoltage 200) ∧
    ((100 : ℕ) < 200 ∧ readVoltage 100 < readVoltage 200) :=
  ⟨⟨by decide, by decide, by decide,
      readVoltage_zero_and_monotone.2.1 100 200 (by decide) (by decide) (by decide)⟩,
    ⟨by decide, readVoltage_zero_and_monotone.2.2 100 200 (by decide) (by decide) (by decide)⟩⟩

/-- Claim C8 counterexample: the raw sample `2048` converts to exactly
`45056/6825 = 6.60161… V`, which falls short of the claimed `6.606 V` by
more than `0.004` (so it is not `6.606` to the three decimal places
stated), and the claimed power `13.21 W` overstates
`2.0 · 45056/6825 = 13.2032… W` by more than `0.005` (so it is not
`13.21` to the two decimal places stated). -/
theorem specExample_values_off :
    readVoltage 2048 = 45056 / 6825 ∧
    4 / 1000 < 6606 / 1000 - readVoltage 2048 ∧
    5 / 1000 < 1321 / 100 - readVoltage 2048 * 2 := by
  norm_num [readVoltage, ADC_RESOLUTION, ADC_MAX_VOLTAGE, VOLTAGE_SCALE_FACTOR]

/-- Claim C8 as amended: with resolution `4095`, reference `3.3` and
divider ratio `4.0`, the raw voltage sample `2048` converts to exactly
`45056/6825 ≈ 6.602 V`; combined with a current of `2.0 A` the computed
power is `≈ 13.203 W`, which reaches the `10.0 W` threshold, and the load
decision from the Disconnected startup state drives the relay to
Connected. -/
theorem specExample_amended :
    readVoltage 2048 = 45056 / 6825 ∧
    |readVoltage 2048 - 6602 / 1000| < 1 / 1000 ∧
    |readVoltage 2048 * 2 - 13203 / 1000| < 1 / 1000 ∧
    MIN_POWER_TO_CONNECT_W ≤ readVoltage 2048 * 2 ∧
    (decideAt (readVoltage 2048 * 2) initialState).relayPin = true ∧
    (decideAt (readVoltage 2048 * 2) initialState).loadConnected = true := by
  refine ⟨?_, ?_, ?_, ?_, ?_, ?_⟩
  · norm_num [readVoltage, ADC_RESOLUTION, ADC_MAX_VOLTAGE, VOLTAGE_SCALE_FACTOR]
  · rw [abs_lt]
    constructor <;> norm_num [readVoltage, ADC_RESOLUTION, ADC_MAX_VOLTAGE, VOLTAGE_SCALE_FACTOR]
  · rw [abs_lt]
    constructor <;> norm_num [readVoltage, ADC_RESOLUTION, ADC_MAX_VOLTAGE, VOLTAGE_SCALE_FACTOR]
  · norm_num [readVoltage, ADC_RESOLUTION, ADC_MAX_VOLTAGE, VOLTAGE_SCALE_FACTOR,
      MIN_POWER_TO_CONNECT_W]
  · simp [decideAt, controlLoad, initialState]
    norm_num [readVoltage, ADC_RESOLUTION, ADC_MAX_VOLTAGE, VOLTAGE_SCALE_FACTOR,
      MIN_POWER_TO_CONNECT_W]
  · simp [decideAt, controlLoad, initialState]
    norm_num [readVoltage, ADC_RESOLUTION, ADC_MAX_VOLTAGE, VOLTAGE_SCALE_FACTOR,
      MIN_POWER_TO_CONNECT_W]

/-- Claim C9: `getPage` is a pure function of the cached voltage, current,
power and `loadConnected` values together with the fixed threshold — in
particular, it is unaffected by the remaining state component, the relay
pin —; `handleRoot` always succeeds, sending HTTP `200` with content type
`text/html` and the rendered page while leaving the state unchanged; and
the rendered document embeds the `%.2f` renderings of the three cached
numbers, the load-status text, and the `%.1f` rendering of the
threshold. -/
theorem getPage_pure_and_embeds_values :
    (∀ s1 s2 : SysState,
      s1.currentVoltage = s2.currentVoltage →
      s1.currentCurrent = s2.currentCurrent →
      s1.currentPower = s2.currentPower →
      s1.loadConnected = s2.loadConnected →
      getPage s1 = getPage s2) ∧
    (∀ s : SysState, handleRoot s = (s, 200, "text/html", getPage s)) ∧
    (∀ s : SysState,
      containsStr (fmtFixed 2 s.currentVoltage) (getPage s) ∧
      containsStr (fmtFixed 2 s.currentCurrent) (getPage s) ∧
      containsStr (fmtFixed 2 s.currentPower) (getPage s) ∧
      containsStr (if s.loadConnected then "CONNECTED" else "DISCONNECTED (Low Power)") (getPage s) ∧
      containsStr (fmtFixed 1 MIN_POWER_TO_CONNECT_W) (getPage s)) := by
  refine ⟨fun s1 s2 h1 h2 h3 h4 => by simp only [getPage, h1, h2, h3, h4],
    fun s => rfl, fun s => ?_⟩
  refine ⟨⟨htmlSeg0.data,
      (htmlSeg1 ++ fmtFixed 2 s.currentCurrent ++ htmlSeg2 ++ fmtFixed 2 s.currentPower ++
        htmlSeg3 ++ (if s.loadConnected then "on" else "off") ++ htmlSeg4 ++
        (if s.loadConnected then "CONNECTED" else "DISCONNECTED (Low Power)") ++
        htmlSeg5 ++ fmtFixed 1 MIN_POWER_TO_CONNECT_W ++ htmlSeg6).data, ?_⟩,
    ⟨(htmlSeg0 ++ fmtFixed 2 s.currentVoltage ++ htmlSeg1).data,
      (htmlSeg2 ++ fmtFixed 2 s.currentPower ++
        htmlSeg3 ++ (if s.loadConnected then "on" else "off") ++ htmlSeg4 ++
        (if s.loadConnected then "CONNECTED" else "DISCONNECTED (Low Power)") ++
        htmlSeg5 ++ fmtFixed 1 MIN_POWER_TO_CONNECT_W ++ htmlSeg6).data, ?_⟩,
    ⟨(htmlSeg0 ++ fmtFixed 2 s.currentVoltage ++ htmlSeg1 ++ fmtFixed 2 s.currentCurrent ++
        htmlSeg2).data,
      (htmlSeg3 ++ (if s.loadConnected then "on" else "off") ++ htmlSeg4 ++
        (if s.loadConnected then "CONNECTED" else "DISCONNECTED (Low Power)") ++
        htmlSeg5 ++ fmtFixed 1 MIN_POWER_TO_CONNECT_W ++ htmlSeg6).data, ?_⟩,
    ⟨(htmlSeg0 ++ fmtFixed 2 s.currentVoltage ++ htmlSeg1 ++ fmtFixed 2 s.currentCurrent ++
        htmlSeg2 ++ fmtFixed 2 s.currentPower ++ htmlSeg3 ++
        (if s.loadConnected then "on" else "off") ++ htmlSeg4).data,
      (htmlSeg5 ++ fmtFixed 1 MIN_POWER_TO_CONNECT_W ++ htmlSeg6).data, ?_⟩,
    ⟨(htmlSeg0 ++ fmtFixed 2 s.currentVoltage ++ htmlSeg1 ++ fmtFixed 2 s.currentCurrent ++
        htmlSeg2 ++ fmtFixed 2 s.currentPower ++ htmlSeg3 ++
        (if s.loadConnected then "on" else "off") ++ htmlSeg4 ++
        (if s.loadConnected then "CONNECTED" else "DISCONNECTED (Low Power)") ++
        htmlSeg5).data, htmlSeg6.data, ?_⟩⟩ <;>
    simp [getPage, String.data_append, List.append_assoc]

/-- Witness for claim C9: two concrete states that agree on the four
cached values but differ on the relay pin render the same page. -/
theorem getPage_pure_and_embeds_values_witness :
    getPage ⟨1, 2, 2, true, false⟩ = getPage ⟨1, 2, 2, true, true⟩ :=
  getPage_pure_and_embeds_values.1 ⟨1, 2, 2, true, false⟩ ⟨1, 2, 2, true, true⟩
    rfl rfl rfl rfl

/-- Claim C10: each `loop()` iteration's state evolution is exactly the
composition Acquisition, then power computation, then the load decision
(`delay(5000)` does not touch the state); the diagnostic presentation line
renders the state left by the decision; and the page served to a pending
request is rendered from the previously cached state — it is the same for
any two acquisition environments of the iteration, i.e. request handling
reads cached values and never re-samples. -/
theorem loop_stage_order :
    ∀ (env env2 : LoopEnv) (s : SysState),
      (loopStep env s).1 = controlLoad (powerStage (acquireStage env s)) ∧
      (loopStep env s).2.1 = getPage s ∧
      (loopStep env s).2.1 = (loopStep env2 s).2.1 ∧
      (loopStep env s).2.2 = serialStatusLine (controlLoad (powerStage (acquireStage env s))) :=
  fun _ _ _ => ⟨rfl, rfl, rfl, rfl⟩
